import Mathlib

/-!
Shallow embedding of the navigation / session-history bookkeeping of
`RenderView` (src/chrome/renderer/render_view.cc), the test-shell drag
delegate (src/webkit/tools/test_shell/drag_delegate.cc) and the cache-mode
selection in the test-shell `main()`
(src/webkit/tools/test_shell/test_shell_main.cc).

Machine `int32` values are modelled as `Int` (signed overflow is undefined
behaviour in the source, so no wrap-around is modelled).  IPC `Send` calls
are modelled as a list of emitted messages; `PostDelayedTask` calls as a
list of posted tasks.
-/

namespace Chromium

/-- `GURL`: a URL together with the predicates the embedded code queries.
`spec_str` is the serialized URL, `secure` models `SchemeIsSecure()`,
`valid` models `is_valid()`. -/
structure GURL where
  spec_str : String
  secure : Bool
  valid : Bool
  deriving DecidableEq

/-- `GURL()` — the default, empty (invalid) URL (used to clear
`completed_client_redirect_src_`). -/
def GURL.empty : GURL := ⟨"", false, false⟩

/-- `GURL::is_empty()`. -/
def GURL.is_empty (u : GURL) : Bool := u.spec_str = ""

/-- `GURL::is_valid()`. -/
def GURL.is_valid (u : GURL) : Bool := u.valid

/-- Core page-transition types from `PageTransition::Type`
(the ones reachable in this translation unit). -/
inductive PageTransitionCore where
  | LINK
  | TYPED
  | RELOAD
  | FORM_SUBMIT
  | AUTO_SUBFRAME
  | MANUAL_SUBFRAME
  | START_PAGE
  deriving DecidableEq

/-- A `PageTransition::Type` value: a core type plus the
`CLIENT_REDIRECT` qualifier bit (the only qualifier this file ORs in). -/
structure PageTransition where
  core : PageTransitionCore
  client_redirect : Bool
  deriving DecidableEq

/-- The plain `PageTransition::LINK` constant. -/
def PageTransition.LINK : PageTransition := ⟨.LINK, false⟩

/-- `PageTransition::IsMainFrame`: everything except the two subframe
transition types. -/
def PageTransition.IsMainFrame (t : PageTransition) : Bool :=
  t.core ≠ .AUTO_SUBFRAME ∧ t.core ≠ .MANUAL_SUBFRAME

/-- `RenderViewExtraRequestData` (the extra data RenderView hangs off a
`WebRequest`): transition type, commit bookkeeping, pending page ID. -/
structure RenderViewExtraRequestData where
  transition_type : PageTransition
  request_committed : Bool
  pending_page_id : Int
  deriving DecidableEq

/-- `RenderViewExtraRequestData::is_new_navigation()`:
`pending_page_id_ == -1`. -/
def RenderViewExtraRequestData.is_new_navigation
    (d : RenderViewExtraRequestData) : Bool :=
  d.pending_page_id = -1

/-- The three values of `RenderView`'s target-url status enum. -/
inductive TargetURLStatus where
  | TARGET_NONE
  | TARGET_PENDING
  | TARGET_INFLIGHT
  deriving DecidableEq

/-- `NavigationGesture` values. -/
inductive NavigationGesture where
  | User
  | Auto
  | Unknown
  deriving DecidableEq

/-- Outbound IPC messages (`Send(new ViewHostMsg_...)`) emitted by the
embedded fragment, carrying the payload fields the claims talk about. -/
inductive Msg where
  | GoToEntryAtOffset (offset : Int)
  | FrameNavigate (page_id : Int) (url : String) (transition : PageTransition)
      (is_post : Bool)
  | UpdateState (page_id : Int) (history_state : String)
  | UpdateTargetURL (page_id : Int) (url : String)
  | UpdateEncoding (encoding : String)
  | DidStartLoading (page_id : Int)
  | DidStopLoading (page_id : Int)
  | UpdateFavIconURL (page_id : Int) (url : String)
  | PageHasOSDD (page_id : Int) (url : String) (autodetected : Bool)
  | PageContents (url : String) (load_id : Int) (contents : List Char)
  | Thumbnail
  | CreateWindow (user_gesture : Bool)
  deriving DecidableEq

/-- Tasks posted with `MessageLoop::current()->PostDelayedTask`. -/
inductive Task where
  | CapturePageInfoTask (page_id : Int) (preliminary_capture : Bool)
  deriving DecidableEq

/-- The mutable `RenderView` fields touched by the embedded member
functions (initial values follow the constructor's initializer list). -/
structure RenderView where
  page_id : Int
  last_page_id_sent_to_browser : Int
  last_indexed_page_id : Int
  history_back_list_count : Int
  history_forward_list_count : Int
  is_loading : Bool
  first_default_plugin : Option Unit
  pending_upload_data : Option Unit
  navigation_gesture : NavigationGesture
  target_url : String
  pending_target_url : String
  target_url_status : TargetURLStatus
  popup_notification_visible : Bool
  last_encoding_name : String
  completed_client_redirect_src : GURL
  deriving DecidableEq

/-- The `RenderView` constructor's field initializations. -/
def RenderView.init : RenderView where
  page_id := -1
  last_page_id_sent_to_browser := -1
  last_indexed_page_id := -1
  history_back_list_count := 0
  history_forward_list_count := 0
  is_loading := false
  first_default_plugin := none
  pending_upload_data := none
  navigation_gesture := .Unknown
  target_url := ""
  pending_target_url := ""
  target_url_status := .TARGET_NONE
  popup_notification_visible := false
  last_encoding_name := ""
  completed_client_redirect_src := GURL.empty

/-- `RenderView::GoToEntryAtOffset`: adjust the cached back/forward
counters and tell the browser to do the history navigation. -/
def RenderView.GoToEntryAtOffset (rv : RenderView) (offset : Int) :
    RenderView × List Msg :=
  ({ rv with
      history_back_list_count := rv.history_back_list_count + offset,
      history_forward_list_count := rv.history_forward_list_count - offset },
   [Msg.GoToEntryAtOffset offset])

end Chromium

namespace TestShellDrag

/-- A Windows `CPoint`. -/
structure CPoint where
  x : Int
  y : Int
  deriving DecidableEq

/-- The OS facts the drag delegate reads for its window `source_hwnd_`:
whether `GetCursorPos` succeeds (and with what screen position), and the
window's screen-to-client coordinate transform. -/
structure CursorEnv where
  getCursorPos : Option CPoint
  screenToClient : CPoint → CPoint

/-- `GetCursorPositions` (drag_delegate.cc anonymous namespace): on
`GetCursorPos` failure the screen position falls back to (0,0); the client
position is the screen position mapped through `ScreenToClient`. -/
def GetCursorPositions (env : CursorEnv) : CPoint × CPoint :=
  let screen := match env.getCursorPos with
    | some p => p
    | none => ⟨0, 0⟩
  (env.screenToClient screen, screen)

/-- The calls the delegate makes into the webview. -/
inductive WebViewCall where
  | DragSourceEndedAt (client_x client_y screen_x screen_y : Int)
  | DragSourceMovedTo (client_x client_y screen_x screen_y : Int)
  deriving DecidableEq

/-- `TestDragDelegate::OnDragSourceDrop`. -/
def OnDragSourceDrop (env : CursorEnv) : WebViewCall :=
  let (client, screen) := GetCursorPositions env
  .DragSourceEndedAt client.x client.y screen.x screen.y

/-- `TestDragDelegate::OnDragSourceCancel`: simply invokes drop. -/
def OnDragSourceCancel (env : CursorEnv) : WebViewCall :=
  OnDragSourceDrop env

/-- `TestDragDelegate::OnDragSourceMove`. -/
def OnDragSourceMove (env : CursorEnv) : WebViewCall :=
  let (client, screen) := GetCursorPositions env
  .DragSourceMovedTo client.x client.y screen.x screen.y

end TestShellDrag

namespace TestShellMain

/-- The `test_shell::` command-line switches consulted by `main()`. -/
inductive Switch where
  | kStartupDialog
  | kNoErrorDialogs
  | kLayoutTests
  | kPlaybackMode
  | kRecordMode
  | kEnableFileCookies
  | kCacheDir
  | kTestShellTimeOut
  deriving DecidableEq

/-- A parsed command line: the set of switches present. -/
structure CommandLine where
  switches : List Switch
  deriving DecidableEq

/-- `CommandLine::HasSwitch`. -/
def CommandLine.HasSwitch (cl : CommandLine) (s : Switch) : Bool :=
  s ∈ cl.switches

/-- `net::HttpCache::Mode` values used by `main()`. -/
inductive CacheMode where
  | NORMAL
  | RECORD
  | PLAYBACK
  deriving DecidableEq

/-- The cache-mode selection in test_shell `main()`: start from NORMAL,
switch to PLAYBACK when the playback-mode switch is present, else to
RECORD when the record-mode switch is present. -/
def mainCacheMode (cl : CommandLine) : CacheMode :=
  let cache_mode : CacheMode := .NORMAL
  let playback_mode := cl.HasSwitch .kPlaybackMode
  let record_mode := cl.HasSwitch .kRecordMode
  if playback_mode then .PLAYBACK
  else if record_mode then .RECORD
  else cache_mode

end TestShellMain

namespace Chromium

/-- The inputs `RenderView::UpdateURL` reads off the navigated frame and
its data source. -/
structure UpdateURLEnv where
  is_main_frame : Bool
  extra_data : Option RenderViewExtraRequestData
  url : String
  is_form_submit : Bool
  http_method : String
  deriving DecidableEq

/-- The outputs of `RenderView::UpdateURL`: the updated view, the frame
request's extra data afterwards, and the messages sent. -/
structure UpdateURLResult where
  rv : RenderView
  extra_data : Option RenderViewExtraRequestData
  msgs : List Msg
  deriving DecidableEq

/-- The `params.transition` / `params.is_post` computation of
`RenderView::UpdateURL`: top-level navigations start from the transition
recorded in the extra data (defaulting to LINK), are forced to LINK when
the recorded type is a subframe type, upgraded to FORM_SUBMIT for form
submissions, and get the CLIENT_REDIRECT qualifier when a completed client
redirect source is pending; subframe navigations are MANUAL_SUBFRAME when
`page_id_ > last_page_id_sent_to_browser_` and AUTO_SUBFRAME otherwise. -/
def RenderView.frameNavigateParams (rv : RenderView) (env : UpdateURLEnv) :
    PageTransition × Bool :=
  if env.is_main_frame then
    let t := match env.extra_data with
      | some d => d.transition_type
      | none => PageTransition.LINK
    let t := if t.IsMainFrame = false then PageTransition.LINK else t
    let t := if t = PageTransition.LINK ∧ env.is_form_submit then
        ⟨.FORM_SUBMIT, false⟩ else t
    let t := if rv.completed_client_redirect_src.is_valid then
        ⟨t.core, true⟩ else t
    (t, env.http_method == "POST")
  else
    (if rv.page_id > rv.last_page_id_sent_to_browser then
        (⟨.MANUAL_SUBFRAME, false⟩ : PageTransition)
      else ⟨.AUTO_SUBFRAME, false⟩,
     false)

/-- `RenderView::UpdateURL`: build the `ViewHostMsg_FrameNavigate` params,
consume the navigation gesture, send the message, record the largest page
ID sent to the browser, and clear the extra data's transition type. -/
def RenderView.UpdateURL (rv : RenderView) (env : UpdateURLEnv) :
    UpdateURLResult :=
  let p := rv.frameNavigateParams env
  let rv1 := { rv with navigation_gesture := .Unknown }
  let msgs := [Msg.FrameNavigate rv.page_id env.url p.1 p.2]
  let rv2 := { rv1 with
    last_page_id_sent_to_browser :=
      max rv1.last_page_id_sent_to_browser rv1.page_id }
  ⟨rv2,
   env.extra_data.map (fun d => { d with
     transition_type := PageTransition.LINK }),
   msgs⟩

/-- `RenderView::UpdateSessionHistory`: send the previous session-history
state unless there is no valid page ID yet or no previous state. -/
def RenderView.UpdateSessionHistory (rv : RenderView)
    (prev_history_state : Option String) : List Msg :=
  if rv.page_id = -1 then []
  else
    match prev_history_state with
    | none => []
    | some st => [Msg.UpdateState rv.page_id st]

/-- `RenderView::UpdateEncoding`: only the main frame's encoding is
reported, and only when it changed. -/
def RenderView.UpdateEncoding (rv : RenderView) (is_main_frame : Bool)
    (encoding_name : String) : RenderView × List Msg :=
  if is_main_frame ∧ rv.last_encoding_name ≠ encoding_name then
    ({ rv with last_encoding_name := encoding_name },
     [Msg.UpdateEncoding encoding_name])
  else (rv, [])

/-- The inputs `RenderView::DidCommitLoadForFrame` reads from the webview:
the main-frame request's extra data, the previous session-history state
(if retrievable), the navigated frame's `UpdateURL` inputs, and the main
frame's encoding name. -/
structure CommitEnv where
  main_extra_data : Option RenderViewExtraRequestData
  prev_history_state : Option String
  update_url_env : UpdateURLEnv
  main_frame_encoding_name : String
  deriving DecidableEq

/-- The outputs of `RenderView::DidCommitLoadForFrame`: the global
`next_page_id_` counter afterwards, the updated view, both requests' extra
data afterwards, the messages sent and the tasks posted. -/
structure CommitResult where
  next_page_id : Int
  rv : RenderView
  main_extra_data : Option RenderViewExtraRequestData
  frame_extra_data : Option RenderViewExtraRequestData
  msgs : List Msg
  tasks : List Task
  deriving DecidableEq

/-- `RenderView::DidCommitLoadForFrame`.  `next_page_id` is the global
`next_page_id_` counter, threaded explicitly.  For a new navigation the
previous entry's state is saved, `page_id_` is bumped to `next_page_id_++`
and a forced CapturePageInfo task is posted; otherwise a not yet committed
session-history navigation with a different pending page ID restores its
pending page ID.  Afterwards the request is marked committed, `UpdateURL`
runs, the completed client redirect source is cleared and the encoding is
refreshed. -/
def RenderView.DidCommitLoadForFrame (rv : RenderView) (next_page_id : Int)
    (env : CommitEnv) (is_new_navigation : Bool) : CommitResult :=
  let step1 : RenderView × Int × List Msg × List Task :=
    if is_new_navigation then
      let m := rv.UpdateSessionHistory env.prev_history_state
      let rvA := { rv with page_id := next_page_id }
      (rvA, next_page_id + 1, m,
       [Task.CapturePageInfoTask rvA.page_id true])
    else
      match env.main_extra_data with
      | some d =>
        if d.is_new_navigation = false ∧ d.request_committed = false ∧
            rv.page_id ≠ d.pending_page_id then
          let m := rv.UpdateSessionHistory env.prev_history_state
          ({ rv with page_id := d.pending_page_id }, next_page_id, m, [])
        else (rv, next_page_id, [], [])
      | none => (rv, next_page_id, [], [])
  let rv1 := step1.1
  let main_extra := env.main_extra_data.map
    (fun d => { d with request_committed := true })
  let r := rv1.UpdateURL env.update_url_env
  let rv2 := { r.rv with completed_client_redirect_src := GURL.empty }
  let r2 := rv2.UpdateEncoding env.update_url_env.is_main_frame
    env.main_frame_encoding_name
  ⟨step1.2.1, r2.1, main_extra, r.extra_data,
   step1.2.2.1 ++ r.msgs ++ r2.2, step1.2.2.2⟩

/-- The page IDs assigned over a sequence of committed new navigations:
fold `DidCommitLoadForFrame` with `is_new_navigation = true`, recording
`page_id_` after each commit. -/
def commitTrace (next_page_id : Int) (rv : RenderView) :
    List CommitEnv → List Int
  | [] => []
  | env :: rest =>
    let r := rv.DidCommitLoadForFrame next_page_id env true
    r.rv.page_id :: commitTrace r.next_page_id r.rv rest

/-- The integers `start, start+1, ..., start+n-1`. -/
def intRangeFrom (start : Int) : Nat → List Int
  | 0 => []
  | n + 1 => start :: intRangeFrom (start + 1) n

/-- `RenderView::DidStartLoading`: a call while already loading only logs
a warning and returns. -/
def RenderView.DidStartLoading (rv : RenderView) : RenderView × List Msg :=
  if rv.is_loading then (rv, [])
  else
    ({ rv with is_loading := true, first_default_plugin := none },
     [Msg.DidStartLoading rv.page_id])

/-- `RenderView::AddGURLSearchProvider`. -/
def RenderView.AddGURLSearchProvider (rv : RenderView) (osd_url : GURL)
    (autodetected : Bool) : List Msg :=
  if osd_url.is_empty = false then
    [Msg.PageHasOSDD rv.page_id osd_url.spec_str autodetected]
  else []

/-- `RenderView::ProcessPendingUpload`: drop the pending upload data once
the form-to-upload-file fill succeeds. -/
def RenderView.ProcessPendingUpload (rv : RenderView)
    (has_webview fill_form_ok : Bool) : RenderView :=
  if rv.pending_upload_data.isSome ∧ has_webview ∧ fill_form_ok then
    { rv with pending_upload_data := none }
  else rv

/-- `RenderView::ResetPendingUpload`. -/
def RenderView.ResetPendingUpload (rv : RenderView) : RenderView :=
  { rv with pending_upload_data := none }

/-- The inputs `RenderView::DidStopLoading` reads from the webview and the
glue layer. -/
structure StopLoadingEnv where
  favicon_url : GURL
  osdd_url : GURL
  has_webview : Bool
  fill_form_ok : Bool
  deriving DecidableEq

/-- `RenderView::DidStopLoading`: a call while not loading only logs a
warning and returns; otherwise report the favicon and OSDD URLs, report
the stop, post a CapturePageInfo task, and process then reset any pending
upload. -/
def RenderView.DidStopLoading (rv : RenderView) (env : StopLoadingEnv) :
    RenderView × List Msg × List Task :=
  if rv.is_loading = false then (rv, [], [])
  else
    let rv1 := { rv with is_loading := false }
    let m1 : List Msg :=
      if env.favicon_url.is_empty = false then
        [Msg.UpdateFavIconURL rv1.page_id env.favicon_url.spec_str]
      else []
    let m2 := rv1.AddGURLSearchProvider env.osdd_url true
    let m3 : List Msg := [Msg.DidStopLoading rv1.page_id]
    let tasks := [Task.CapturePageInfoTask rv1.page_id false]
    let rv2 :=
      (rv1.ProcessPendingUpload env.has_webview env.fill_form_ok
        ).ResetPendingUpload
    (rv2, m1 ++ m2 ++ m3, tasks)

/-- `RenderView::UpdateTargetURL`: a changed URL is sent immediately when
no update is in flight (entering TARGET_INFLIGHT); otherwise it only
overwrites the pending URL (entering TARGET_PENDING). -/
def RenderView.UpdateTargetURL (rv : RenderView) (url : String) :
    RenderView × List Msg :=
  if url ≠ rv.target_url then
    if rv.target_url_status = .TARGET_INFLIGHT ∨
        rv.target_url_status = .TARGET_PENDING then
      ({ rv with pending_target_url := url,
                 target_url_status := .TARGET_PENDING }, [])
    else
      ({ rv with target_url := url, target_url_status := .TARGET_INFLIGHT },
       [Msg.UpdateTargetURL rv.page_id url])
  else (rv, [])

/-- `RenderView::OnUpdateTargetURLAck`: send the pending target URL, if
any, and return to TARGET_NONE. -/
def RenderView.OnUpdateTargetURLAck (rv : RenderView) :
    RenderView × List Msg :=
  let msgs :=
    if rv.target_url_status = .TARGET_PENDING then
      [Msg.UpdateTargetURL rv.page_id rv.pending_target_url]
    else []
  ({ rv with target_url_status := .TARGET_NONE }, msgs)

/-- Process a sequence of `UpdateTargetURL` calls, collecting the sent
messages. -/
def processTargetUpdates (rv : RenderView) :
    List String → RenderView × List Msg
  | [] => (rv, [])
  | u :: rest =>
    let r := rv.UpdateTargetURL u
    let r2 := processTargetUpdates r.1 rest
    (r2.1, r.2 ++ r2.2)

/-- The last element of a list, or the default for an empty list. -/
def lastD (d : String) : List String → String
  | [] => d
  | u :: rest => lastD u rest

/-- `kMaxIndexChars` (render_view.cc): maximum number of characters
captured for indexing. -/
def kMaxIndexChars : Nat := 65535

/-- The whitespace characters of `base::kWhitespaceWide` (ASCII core). -/
def kWhitespaceWide : List Char := [' ', '\t', '\n', '\r']

/-- `std::wstring::find_last_of`: index of the last character belonging to
the given set, if any. -/
def find_last_of (s char_set : List Char) : Option Nat :=
  match s.reverse.findIdx? (fun c => char_set.contains c) with
  | some j => some (s.length - 1 - j)
  | none => none

/-- The frame state `RenderView::CaptureText` and `CapturePageInfo`
consult. `content` is what `GetContentAsPlainText` would retrieve before
the `kMaxIndexChars` cap. -/
structure WebFrameModel where
  url : GURL
  in_view_source_mode : Bool
  has_unreachable_url : Bool
  content : List Char
  deriving DecidableEq

/-- A webview as seen by `CapturePageInfo`: its main frame, if any. -/
structure WebViewModel where
  main_frame : Option WebFrameModel
  deriving DecidableEq

/-- `RenderView::CaptureText`: clear the output; bail out on a null frame
or a secure (https) URL; retrieve at most `kMaxIndexChars` characters; and
when the cap was hit, truncate at the last whitespace (or drop everything
when there is none). -/
def CaptureText (frame : Option WebFrameModel) : List Char :=
  match frame with
  | none => []
  | some f =>
    if f.url.secure then []
    else
      let contents := f.content.take kMaxIndexChars
      if contents.length = kMaxIndexChars then
        match find_last_of contents kWhitespaceWide with
        | none => []
        | some i => contents.take i
      else contents

/-- `RenderView::CapturePageInfo`: skip stale or already indexed loads,
missing webview/frame, view-source mode and unreachable URLs; otherwise
(for non-preliminary captures) record the indexed page ID, then send the
captured text (when non-empty) and a thumbnail. -/
def RenderView.CapturePageInfo (rv : RenderView) (wv : Option WebViewModel)
    (load_id : Int) (preliminary_capture : Bool) : RenderView × List Msg :=
  if load_id ≠ rv.page_id then (rv, [])
  else if load_id = rv.last_indexed_page_id then (rv, [])
  else
    match wv with
    | none => (rv, [])
    | some w =>
      match w.main_frame with
      | none => (rv, [])
      | some mf =>
        if mf.in_view_source_mode then (rv, [])
        else if mf.has_unreachable_url then (rv, [])
        else
          let rv1 := if preliminary_capture = false then
              { rv with last_indexed_page_id := load_id }
            else rv
          if mf.url.is_empty then (rv1, [])
          else
            let contents := CaptureText (some mf)
            let m : List Msg :=
              if contents.length ≠ 0 then
                [Msg.PageContents mf.url.spec_str load_id contents]
              else []
            (rv1, m ++ [Msg.Thumbnail])

/-- `kMaximumNumberOfUnacknowledgedPopups` (render_view.cc): the maximum
number of popups that can be spawned from one page. -/
def kMaximumNumberOfUnacknowledgedPopups : Int := 25

/-- `MSG_ROUTING_NONE` (IPC framework constant). -/
def MSG_ROUTING_NONE : Int := -2

/-- `RenderView::CreateWebView`: refuse (NULL, no message, no state
change) when the shared popup counter is over the limit; otherwise mark
the popup notification visible, ask the browser to create a window, and
fail when the browser replies with `MSG_ROUTING_NONE`.  The result is the
routing ID of the created view, if any. -/
def RenderView.CreateWebView (rv : RenderView) (shared_popup_count : Int)
    (user_gesture : Bool) (browser_reply_routing_id : Int) :
    Option Int × RenderView × List Msg :=
  if shared_popup_count > kMaximumNumberOfUnacknowledgedPopups then
    (none, rv, [])
  else
    let rv1 := { rv with popup_notification_visible := true }
    let msgs := [Msg.CreateWindow user_gesture]
    if browser_reply_routing_id = MSG_ROUTING_NONE then (none, rv1, msgs)
    else (some browser_reply_routing_id, rv1, msgs)

/-- The `ViewMsg_*` message types with an entry in
`RenderView::OnMessageReceived`'s dispatch map, in table order. -/
inductive ViewMsgType where
  | CaptureThumbnail
  | PrintPages
  | Navigate
  | Stop
  | LoadAlternateHTMLText
  | StopFinding
  | Undo
  | Redo
  | Cut
  | Copy
  | Paste
  | Replace
  | ToggleSpellCheck
  | Delete
  | SelectAll
  | CopyImageAt
  | Find
  | Zoom
  | InsertText
  | SetPageEncoding
  | InspectElement
  | ShowJavaScriptConsole
  | SetupDevToolsClient
  | DownloadImage
  | ScriptEvalRequest
  | CSSInsertRequest
  | AddMessageToConsole
  | DebugAttach
  | DebugDetach
  | ReservePageIDRange
  | UploadFile
  | FormFill
  | FillPasswordForm
  | DragTargetDragEnter
  | DragTargetDragOver
  | DragTargetDragLeave
  | DragTargetDrop
  | AllowBindings
  | SetDOMUIProperty
  | DragSourceEndedOrMoved
  | DragSourceSystemDragEnded
  | SetInitialFocus
  | FindReplyACK
  | UpdateTargetURL_ACK
  | UpdateWebPreferences
  | SetAltErrorPageURL
  | InstallMissingPlugin
  | RunFileChooserResponse
  | EnableViewSourceMode
  | UpdateBackForwardListCount
  | GetAllSavableResourceLinksForCurrentPage
  | GetSerializedHtmlDataForCurrentPageWithLocalLinks
  | GetApplicationInfo
  | GetAccessibilityInfo
  | ClearAccessibilityInfo
  | ShouldClose
  | ClosePage
  | ThemeChanged
  | HandleMessageFromExternalHost
  | DisassociateFromPopupCount
  | AutofillSuggestions
  | PopupNotificationVisiblityChanged
  | MoveOrResizeStarted
  | ExtensionResponse
  | ClearFocusedNode
  | SetBackground
  deriving DecidableEq

/-- The `RenderView` member functions named as handlers in the dispatch
map, in table order. -/
inductive RVHandler where
  | SendThumbnail
  | OnPrintPages
  | OnNavigate
  | OnStop
  | OnLoadAlternateHTMLText
  | OnStopFinding
  | OnUndo
  | OnRedo
  | OnCut
  | OnCopy
  | OnPaste
  | OnReplace
  | OnToggleSpellCheck
  | OnDelete
  | OnSelectAll
  | OnCopyImageAt
  | OnFind
  | OnZoom
  | OnInsertText
  | OnSetPageEncoding
  | OnInspectElement
  | OnShowJavaScriptConsole
  | OnSetupDevToolsClient
  | OnDownloadImage
  | OnScriptEvalRequest
  | OnCSSInsertRequest
  | OnAddMessageToConsole
  | OnDebugAttach
  | OnDebugDetach
  | OnReservePageIDRange
  | OnUploadFileRequest
  | OnFormFill
  | OnFillPasswordForm
  | OnDragTargetDragEnter
  | OnDragTargetDragOver
  | OnDragTargetDragLeave
  | OnDragTargetDrop
  | OnAllowBindings
  | OnSetDOMUIProperty
  | OnDragSourceEndedOrMoved
  | OnDragSourceSystemDragEnded
  | OnSetInitialFocus
  | OnFindReplyAck
  | OnUpdateTargetURLAck
  | OnUpdateWebPreferences
  | OnSetAltErrorPageURL
  | OnInstallMissingPlugin
  | OnFileChooserResponse
  | OnEnableViewSourceMode
  | OnUpdateBackForwardListCount
  | OnGetAllSavableResourceLinksForCurrentPage
  | OnGetSerializedHtmlDataForCurrentPageWithLocalLinks
  | OnGetApplicationInfo
  | OnGetAccessibilityInfo
  | OnClearAccessibilityInfo
  | OnMsgShouldClose
  | OnClosePage
  | OnThemeChanged
  | OnMessageFromExternalHost
  | OnDisassociateFromPopupCount
  | OnReceivedAutofillSuggestions
  | OnPopupNotificationVisiblityChanged
  | OnMoveOrResizeStarted
  | OnExtensionResponse
  | OnClearFocusedNode
  | OnSetBackground
  deriving DecidableEq

/-- First half of the `IPC_BEGIN_MESSAGE_MAP` expansion of
`RenderView::OnMessageReceived`: one `(message type, handler)` pair per
`IPC_MESSAGE_HANDLER` entry, in source order (split in two definitions
only to keep elaboration cheap). -/
def messageMapA : List (ViewMsgType × RVHandler) :=
  [(.CaptureThumbnail, .SendThumbnail),
   (.PrintPages, .OnPrintPages),
   (.Navigate, .OnNavigate),
   (.Stop, .OnStop),
   (.LoadAlternateHTMLText, .OnLoadAlternateHTMLText),
   (.StopFinding, .OnStopFinding),
   (.Undo, .OnUndo),
   (.Redo, .OnRedo),
   (.Cut, .OnCut),
   (.Copy, .OnCopy),
   (.Paste, .OnPaste),
   (.Replace, .OnReplace),
   (.ToggleSpellCheck, .OnToggleSpellCheck),
   (.Delete, .OnDelete),
   (.SelectAll, .OnSelectAll),
   (.CopyImageAt, .OnCopyImageAt),
   (.Find, .OnFind),
   (.Zoom, .OnZoom),
   (.InsertText, .OnInsertText),
   (.SetPageEncoding, .OnSetPageEncoding),
   (.InspectElement, .OnInspectElement),
   (.ShowJavaScriptConsole, .OnShowJavaScriptConsole),
   (.SetupDevToolsClient, .OnSetupDevToolsClient),
   (.DownloadImage, .OnDownloadImage),
   (.ScriptEvalRequest, .OnScriptEvalRequest),
   (.CSSInsertRequest, .OnCSSInsertRequest),
   (.AddMessageToConsole, .OnAddMessageToConsole),
   (.DebugAttach, .OnDebugAttach),
   (.DebugDetach, .OnDebugDetach),
   (.ReservePageIDRange, .OnReservePageIDRange),
   (.UploadFile, .OnUploadFileRequest),
   (.FormFill, .OnFormFill),
   (.FillPasswordForm, .OnFillPasswordForm)]

/-- Second half of the message map, continuing in source order. -/
def messageMapB : List (ViewMsgType × RVHandler) :=
  [(.DragTargetDragEnter, .OnDragTargetDragEnter),
   (.DragTargetDragOver, .OnDragTargetDragOver),
   (.DragTargetDragLeave, .OnDragTargetDragLeave),
   (.DragTargetDrop, .OnDragTargetDrop),
   (.AllowBindings, .OnAllowBindings),
   (.SetDOMUIProperty, .OnSetDOMUIProperty),
   (.DragSourceEndedOrMoved, .OnDragSourceEndedOrMoved),
   (.DragSourceSystemDragEnded, .OnDragSourceSystemDragEnded),
   (.SetInitialFocus, .OnSetInitialFocus),
   (.FindReplyACK, .OnFindReplyAck),
   (.UpdateTargetURL_ACK, .OnUpdateTargetURLAck),
   (.UpdateWebPreferences, .OnUpdateWebPreferences),
   (.SetAltErrorPageURL, .OnSetAltErrorPageURL),
   (.InstallMissingPlugin, .OnInstallMissingPlugin),
   (.RunFileChooserResponse, .OnFileChooserResponse),
   (.EnableViewSourceMode, .OnEnableViewSourceMode),
   (.UpdateBackForwardListCount, .OnUpdateBackForwardListCount),
   (.GetAllSavableResourceLinksForCurrentPage,
     .OnGetAllSavableResourceLinksForCurrentPage),
   (.GetSerializedHtmlDataForCurrentPageWithLocalLinks,
     .OnGetSerializedHtmlDataForCurrentPageWithLocalLinks),
   (.GetApplicationInfo, .OnGetApplicationInfo),
   (.GetAccessibilityInfo, .OnGetAccessibilityInfo),
   (.ClearAccessibilityInfo, .OnClearAccessibilityInfo),
   (.ShouldClose, .OnMsgShouldClose),
   (.ClosePage, .OnClosePage),
   (.ThemeChanged, .OnThemeChanged),
   (.HandleMessageFromExternalHost, .OnMessageFromExternalHost),
   (.DisassociateFromPopupCount, .OnDisassociateFromPopupCount),
   (.AutofillSuggestions, .OnReceivedAutofillSuggestions),
   (.PopupNotificationVisiblityChanged,
     .OnPopupNotificationVisiblityChanged),
   (.MoveOrResizeStarted, .OnMoveOrResizeStarted),
   (.ExtensionResponse, .OnExtensionResponse),
   (.ClearFocusedNode, .OnClearFocusedNode),
   (.SetBackground, .OnSetBackground)]

/-- The full linear dispatch table, in source order. -/
def messageMap : List (ViewMsgType × RVHandler) :=
  messageMapA ++ messageMapB

/-- An incoming IPC message type: either one of the `ViewMsg_*` types in
the dispatch map, or any other message type (identified by its numeric
ID), e.g. a `RenderWidget` message. -/
inductive IPCMsgType where
  | view (t : ViewMsgType)
  | other (id : Nat)
  deriving DecidableEq

/-- The first-match linear scan the message-map macro expands into. -/
def lookupHandler (t : ViewMsgType) :
    List (ViewMsgType × RVHandler) → Option RVHandler
  | [] => none
  | (k, h) :: rest => if t = k then some h else lookupHandler t rest

/-- What the table entry (if any) of an incoming message type is. -/
def tableEntry (t : IPCMsgType) : Option RVHandler :=
  match t with
  | .view vt => lookupHandler vt messageMap
  | .other _ => none

/-- Where `RenderView::OnMessageReceived` routes a message. -/
inductive DispatchOutcome where
  | devtoolsClient
  | devtoolsAgent
  | handler (h : RVHandler)
  | renderWidget
  deriving DecidableEq

/-- `RenderView::OnMessageReceived`: the devtools client and the devtools
agent get first refusal; then the message map is scanned linearly; a
message matching no entry is handed to `RenderWidget::OnMessageReceived`. -/
def OnMessageReceived (devtools_client_handles devtools_agent_handles : Bool)
    (t : IPCMsgType) : DispatchOutcome :=
  if devtools_client_handles then .devtoolsClient
  else if devtools_agent_handles then .devtoolsAgent
  else
    match tableEntry t with
    | some h => .handler h
    | none => .renderWidget

/-- C3: `RenderView::GoToEntryAtOffset` adds `offset` to the back count,
subtracts it from the forward count, leaves their sum unchanged, and sends
a `ViewHostMsg_GoToEntryAtOffset` message carrying that offset. -/
theorem C3_go_to_entry_at_offset (rv : RenderView) (offset : Int) :
    let r := rv.GoToEntryAtOffset offset
    r.1.history_back_list_count = rv.history_back_list_count + offset ∧
    r.1.history_forward_list_count = rv.history_forward_list_count - offset ∧
    r.1.history_back_list_count + r.1.history_forward_list_count =
      rv.history_back_list_count + rv.history_forward_list_count ∧
    r.2 = [Msg.GoToEntryAtOffset offset] := by
  refine ⟨rfl, rfl, ?_, rfl⟩
  simp [RenderView.GoToEntryAtOffset]

end Chromium

namespace TestShellDrag

/-- C5: `OnDragSourceCancel` is behaviorally identical to
`OnDragSourceDrop` (it just invokes drop); drop/cancel reads the OS cursor
position and forwards client and screen coordinates to
`DragSourceEndedAt`, and move forwards them to `DragSourceMovedTo`. -/
theorem C5_drag_delegate_forwarder (env : CursorEnv) :
    OnDragSourceCancel env = OnDragSourceDrop env ∧
    OnDragSourceDrop env =
      .DragSourceEndedAt (GetCursorPositions env).1.x
        (GetCursorPositions env).1.y
        (GetCursorPositions env).2.x (GetCursorPositions env).2.y ∧
    OnDragSourceMove env =
      .DragSourceMovedTo (GetCursorPositions env).1.x
        (GetCursorPositions env).1.y
        (GetCursorPositions env).2.x (GetCursorPositions env).2.y := by
  refine ⟨rfl, ?_, ?_⟩ <;> simp [OnDragSourceDrop, OnDragSourceMove]

end TestShellDrag

namespace TestShellMain

/-- C7: the HTTP cache mode of test_shell `main()` is PLAYBACK when the
playback-mode switch is present, otherwise RECORD when the record-mode
switch is present, and NORMAL when neither is present: playback takes
precedence over record on every command line. -/
theorem C7_cache_mode_precedence (cl : CommandLine) :
    (cl.HasSwitch .kPlaybackMode = true → mainCacheMode cl = .PLAYBACK) ∧
    (cl.HasSwitch .kPlaybackMode = false → cl.HasSwitch .kRecordMode = true →
      mainCacheMode cl = .RECORD) ∧
    (cl.HasSwitch .kPlaybackMode = false → cl.HasSwitch .kRecordMode = false →
      mainCacheMode cl = .NORMAL) := by
  refine ⟨fun hp => ?_, fun hp hr => ?_, fun hp hr => ?_⟩
  · simp [mainCacheMode, hp]
  · simp [mainCacheMode, hp, hr]
  · simp [mainCacheMode, hp, hr]

/-- Witness for C7 at concrete command lines. -/
theorem C7_cache_mode_precedence_witness :
    mainCacheMode ⟨[.kPlaybackMode, .kRecordMode]⟩ = .PLAYBACK ∧
    mainCacheMode ⟨[.kRecordMode]⟩ = .RECORD ∧
    mainCacheMode ⟨[.kLayoutTests]⟩ = .NORMAL := by
  refine ⟨(C7_cache_mode_precedence ⟨[.kPlaybackMode, .kRecordMode]⟩).1
    (by decide),
    (C7_cache_mode_precedence ⟨[.kRecordMode]⟩).2.1 (by decide) (by decide),
    (C7_cache_mode_precedence ⟨[.kLayoutTests]⟩).2.2 (by decide) (by decide)⟩

end TestShellMain

namespace Chromium

/-- `UpdateURL` only resets the navigation gesture and raises
`last_page_id_sent_to_browser_` on the view. -/
theorem UpdateURL_rv (rv : RenderView) (env : UpdateURLEnv) :
    (rv.UpdateURL env).rv =
      { rv with
        navigation_gesture := .Unknown,
        last_page_id_sent_to_browser :=
          max rv.last_page_id_sent_to_browser rv.page_id } := rfl

/-- `UpdateEncoding` never changes `page_id_`. -/
theorem UpdateEncoding_page_id (rv : RenderView) (b : Bool) (e : String) :
    (rv.UpdateEncoding b e).1.page_id = rv.page_id := by
  unfold RenderView.UpdateEncoding
  split <;> rfl

/-- A new-navigation commit assigns `next_page_id_` as the page ID and
increments the counter. -/
theorem DidCommit_new_navigation (rv : RenderView) (next : Int)
    (env : CommitEnv) :
    (rv.DidCommitLoadForFrame next env true).rv.page_id = next ∧
    (rv.DidCommitLoadForFrame next env true).next_page_id = next + 1 := by
  unfold RenderView.DidCommitLoadForFrame
  refine ⟨?_, by simp⟩
  simp [UpdateURL_rv, UpdateEncoding_page_id]

/-- The page IDs assigned over a run of new-navigation commits are the
consecutive integers starting at the counter's initial value. -/
theorem commitTrace_eq (envs : List CommitEnv) :
    ∀ (next : Int) (rv : RenderView),
      commitTrace next rv envs = intRangeFrom next envs.length := by
  induction envs with
  | nil => intro next rv; rfl
  | cons e rest ih =>
    intro next rv
    have h := DidCommit_new_navigation rv next e
    simp only [commitTrace, List.length_cons, intRangeFrom, h.1, h.2, ih]

/-- Every element of `intRangeFrom start n` is at least `start`. -/
theorem intRangeFrom_le (n : Nat) :
    ∀ (start : Int) (x : Int), x ∈ intRangeFrom start n → start ≤ x := by
  induction n with
  | zero => intro start x hx; simp [intRangeFrom] at hx
  | succ m ih =>
    intro start x hx
    simp only [intRangeFrom, List.mem_cons] at hx
    rcases hx with rfl | hx
    · exact le_refl x
    · have := ih (start + 1) x hx
      omega

/-- `intRangeFrom` is strictly increasing (pairwise). -/
theorem intRangeFrom_pairwise (n : Nat) :
    ∀ start : Int, (intRangeFrom start n).Pairwise (· < ·) := by
  induction n with
  | zero => intro start; simp [intRangeFrom]
  | succ m ih =>
    intro start
    simp only [intRangeFrom]
    refine List.Pairwise.cons ?_ (ih (start + 1))
    intro x hx
    have := intRangeFrom_le m (start + 1) x hx
    omega

/-- C1: page-ID assignment.  Every `DidCommitLoadForFrame` with
`is_new_navigation` true sets `page_id_` to the current `next_page_id_`
and increments the counter; consequently, over any sequence of committed
new navigations the assigned page IDs are strictly increasing and never
reused. -/
theorem C1_page_id_assignment :
    (∀ (rv : RenderView) (next : Int) (env : CommitEnv),
      (rv.DidCommitLoadForFrame next env true).rv.page_id = next ∧
      (rv.DidCommitLoadForFrame next env true).next_page_id = next + 1) ∧
    (∀ (next : Int) (rv : RenderView) (envs : List CommitEnv),
      (commitTrace next rv envs).Chain' (· < ·) ∧
      (commitTrace next rv envs).Nodup) := by
  refine ⟨fun rv next env => DidCommit_new_navigation rv next env,
    fun next rv envs => ?_⟩
  rw [commitTrace_eq envs next rv]
  have hp := intRangeFrom_pairwise envs.length next
  exact ⟨hp.chain', hp.imp (fun h => ne_of_lt h)⟩

/-- C2: subframe transition inference in `UpdateURL`.  When the navigated
frame is not the main frame, the `FrameNavigate` message reports
MANUAL_SUBFRAME exactly when `page_id_ > last_page_id_sent_to_browser_`
and AUTO_SUBFRAME otherwise, and afterwards
`last_page_id_sent_to_browser_` is the max of its old value and
`page_id_`. -/
theorem C2_subframe_transition (rv : RenderView) (env : UpdateURLEnv)
    (h : env.is_main_frame = false) :
    (rv.UpdateURL env).msgs =
      [Msg.FrameNavigate rv.page_id env.url
        (if rv.page_id > rv.last_page_id_sent_to_browser then
          ⟨.MANUAL_SUBFRAME, false⟩ else ⟨.AUTO_SUBFRAME, false⟩) false] ∧
    ((rv.frameNavigateParams env).1 = ⟨.MANUAL_SUBFRAME, false⟩ ↔
      rv.page_id > rv.last_page_id_sent_to_browser) ∧
    ((rv.frameNavigateParams env).1 = ⟨.AUTO_SUBFRAME, false⟩ ↔
      ¬ rv.page_id > rv.last_page_id_sent_to_browser) ∧
    (rv.UpdateURL env).rv.last_page_id_sent_to_browser =
      max rv.last_page_id_sent_to_browser rv.page_id := by
  have hp : rv.frameNavigateParams env =
      (if rv.page_id > rv.last_page_id_sent_to_browser then
        (⟨.MANUAL_SUBFRAME, false⟩ : PageTransition)
       else ⟨.AUTO_SUBFRAME, false⟩, false) := by
    simp [RenderView.frameNavigateParams, h]
  refine ⟨?_, ?_, ?_, rfl⟩
  · simp only [RenderView.UpdateURL, hp]
  · rw [hp]; split <;> simp_all
  · rw [hp]; split <;> simp_all

/-- Witness for C2: a concrete subframe navigation with
`page_id_ = 5 > 3 = last_page_id_sent_to_browser_` reports
MANUAL_SUBFRAME. -/
theorem C2_subframe_transition_witness :
    (({ RenderView.init with
          page_id := 5, last_page_id_sent_to_browser := 3 } : RenderView
      ).UpdateURL ⟨false, none, "http://sub/", false, "GET"⟩).msgs =
      [Msg.FrameNavigate 5 "http://sub/" ⟨.MANUAL_SUBFRAME, false⟩ false] := by
  have h := C2_subframe_transition
    ({ RenderView.init with
        page_id := 5, last_page_id_sent_to_browser := 3 })
    ⟨false, none, "http://sub/", false, "GET"⟩ rfl
  simpa using h.1

/-- C6: loading-state callbacks log and continue on re-entry.
`DidStartLoading` while already loading and `DidStopLoading` while not
loading leave the view unchanged and send nothing (and post nothing). -/
theorem C6_loading_log_and_continue (rv : RenderView)
    (env : StopLoadingEnv) :
    (rv.is_loading = true → rv.DidStartLoading = (rv, [])) ∧
    (rv.is_loading = false → rv.DidStopLoading env = (rv, [], [])) := by
  constructor
  · intro h; simp [RenderView.DidStartLoading, h]
  · intro h; simp [RenderView.DidStopLoading, h]

/-- Witness for C6 at concrete states. -/
theorem C6_loading_log_and_continue_witness :
    ({ RenderView.init with is_loading := true } : RenderView
      ).DidStartLoading =
      ({ RenderView.init with is_loading := true }, []) ∧
    RenderView.init.DidStopLoading ⟨GURL.empty, GURL.empty, true, true⟩ =
      (RenderView.init, [], []) :=
  ⟨(C6_loading_log_and_continue
      { RenderView.init with is_loading := true }
      ⟨GURL.empty, GURL.empty, true, true⟩).1 rfl,
   (C6_loading_log_and_continue RenderView.init
      ⟨GURL.empty, GURL.empty, true, true⟩).2 rfl⟩

/-- C10: popup spawn limit.  When the shared popup counter exceeds
`kMaximumNumberOfUnacknowledgedPopups` (= 25), `CreateWebView` returns
NULL immediately: no `ViewHostMsg_CreateWindow` is sent and the view state
is unchanged. -/
theorem C10_popup_limit (rv : RenderView) (count : Int) (ug : Bool)
    (reply : Int) (h : count > kMaximumNumberOfUnacknowledgedPopups) :
    rv.CreateWebView count ug reply = (none, rv, []) ∧
    kMaximumNumberOfUnacknowledgedPopups = 25 := by
  constructor
  · simp [RenderView.CreateWebView, h]
  · rfl

/-- Witness for C10 at counter value 26. -/
theorem C10_popup_limit_witness :
    RenderView.init.CreateWebView 26 true 7 = (none, RenderView.init, []) :=
  (C10_popup_limit RenderView.init 26 true 7 (by decide)).1

end Chromium

namespace Chromium

/-- While a target-URL update is in flight or pending, further
`UpdateTargetURL` calls send nothing: they only overwrite the pending URL
(the last changed URL wins) and move to TARGET_PENDING, leaving page ID
and the in-flight `target_url_` alone. -/
theorem processTargetUpdates_busy (urls : List String) :
    ∀ rv : RenderView,
      (rv.target_url_status = .TARGET_INFLIGHT ∨
        rv.target_url_status = .TARGET_PENDING) →
      (processTargetUpdates rv urls).2 = [] ∧
      (processTargetUpdates rv urls).1.page_id = rv.page_id ∧
      (processTargetUpdates rv urls).1.target_url = rv.target_url ∧
      (processTargetUpdates rv urls).1.pending_target_url =
        lastD rv.pending_target_url
          (urls.filter (fun u => u ≠ rv.target_url)) ∧
      (processTargetUpdates rv urls).1.target_url_status =
        (if urls.filter (fun u => u ≠ rv.target_url) = [] then
          rv.target_url_status
        else .TARGET_PENDING) := by
  induction urls with
  | nil => intro rv hs; simp [processTargetUpdates, lastD]
  | cons u rest ih =>
    intro rv hs
    by_cases hu : u = rv.target_url
    · have hstep : rv.UpdateTargetURL u = (rv, []) := by
        simp [RenderView.UpdateTargetURL, hu]
      have := ih rv hs
      simp only [processTargetUpdates, hstep, List.filter_cons]
      simpa [hu] using this
    · have hstep : rv.UpdateTargetURL u =
          ({ rv with pending_target_url := u,
                     target_url_status := .TARGET_PENDING }, []) := by
        rcases hs with h | h <;> simp [RenderView.UpdateTargetURL, hu, h]
      have hrec := ih
        { rv with pending_target_url := u,
                  target_url_status := .TARGET_PENDING } (Or.inr rfl)
      simp only [processTargetUpdates, hstep, List.filter_cons]
      simp only [List.nil_append] at hrec ⊢
      rcases hrec with ⟨h1, h2, h3, h4, h5⟩
      refine ⟨h1, h2, h3, ?_, ?_⟩
      · simpa [hu, lastD] using h4
      · simp only [hu, decide_not] at h5 ⊢
        simp only [h5]
        by_cases he : rest.filter (fun v => ¬ v = rv.target_url) = [] <;>
          simp [he]

/-- C8: at most one target-URL update in flight.  From TARGET_NONE, a
changed URL is sent and the view enters TARGET_INFLIGHT; from then on no
further `ViewHostMsg_UpdateTargetURL` is sent by any sequence of
`UpdateTargetURL` calls, which only overwrite the pending URL, and the ACK
sends exactly the latest changed pending URL, if any, and returns to
TARGET_NONE. -/
theorem C8_target_url_update_throttle (rv : RenderView) (url : String)
    (urls : List String) (hn : rv.target_url_status = .TARGET_NONE)
    (hu : url ≠ rv.target_url) :
    (rv.UpdateTargetURL url).2 = [Msg.UpdateTargetURL rv.page_id url] ∧
    (rv.UpdateTargetURL url).1.target_url_status = .TARGET_INFLIGHT ∧
    (processTargetUpdates (rv.UpdateTargetURL url).1 urls).2 = [] ∧
    ((processTargetUpdates (rv.UpdateTargetURL url).1 urls
        ).1.OnUpdateTargetURLAck).1.target_url_status = .TARGET_NONE ∧
    ((processTargetUpdates (rv.UpdateTargetURL url).1 urls
        ).1.OnUpdateTargetURLAck).2 =
      (if urls.filter (fun u => u ≠ url) = [] then []
       else [Msg.UpdateTargetURL rv.page_id
              (lastD rv.pending_target_url
                (urls.filter (fun u => u ≠ url)))]) := by
  have hstep : rv.UpdateTargetURL url =
      ({ rv with target_url := url,
                 target_url_status := .TARGET_INFLIGHT },
       [Msg.UpdateTargetURL rv.page_id url]) := by
    simp [RenderView.UpdateTargetURL, hu, hn]
  have hbusy := processTargetUpdates_busy urls
    { rv with target_url := url, target_url_status := .TARGET_INFLIGHT }
    (Or.inl rfl)
  rcases hbusy with ⟨h1, h2, h3, h4, h5⟩
  refine ⟨by simp [hstep], by simp [hstep], by simp [hstep, h1], ?_, ?_⟩
  · simp [hstep, RenderView.OnUpdateTargetURLAck]
  · simp only [hstep, RenderView.OnUpdateTargetURLAck, h2, h4, h5]
    by_cases he : urls.filter (fun u => ¬ u = url) = []
    · simp only [he] at h5 ⊢
      simp
    · simp only [he] at h5 ⊢
      simp

/-- Witness for C8: from the initial state, send `http://a/`, then update
to `http://b/`, `http://a/`, `http://c/` while in flight (nothing is
sent), and receive the ACK: exactly `http://c/` goes out. -/
theorem C8_target_url_update_throttle_witness :
    (RenderView.init.UpdateTargetURL "http://a/").2 =
      [Msg.UpdateTargetURL (-1) "http://a/"] ∧
    (processTargetUpdates (RenderView.init.UpdateTargetURL "http://a/").1
      ["http://b/", "http://a/", "http://c/"]).2 = [] ∧
    ((processTargetUpdates (RenderView.init.UpdateTargetURL "http://a/").1
      ["http://b/", "http://a/", "http://c/"]).1.OnUpdateTargetURLAck).2 =
      [Msg.UpdateTargetURL (-1) "http://c/"] := by
  have h := C8_target_url_update_throttle RenderView.init "http://a/"
    ["http://b/", "http://a/", "http://c/"] rfl (by decide)
  refine ⟨h.1, h.2.2.1, ?_⟩
  rw [h.2.2.2.2]
  rfl

end Chromium

namespace Chromium

/-- C9: secure pages are never indexed.  `CaptureText` returns the empty
string for any frame with a secure (https) scheme, so `CapturePageInfo`
never sends a `ViewHostMsg_PageContents` message for a secure main
frame. -/
theorem C9_secure_pages_not_indexed (f : WebFrameModel) (rv : RenderView)
    (wv : WebViewModel) (load_id : Int) (prelim : Bool) :
    (f.url.secure = true → CaptureText (some f) = []) ∧
    (wv.main_frame = some f → f.url.secure = true →
      ∀ (u : String) (lid : Int) (c : List Char),
        Msg.PageContents u lid c ∉
          (rv.CapturePageInfo (some wv) load_id prelim).2) := by
  constructor
  · intro hsec; simp [CaptureText, hsec]
  · intro hmf hsec u lid c
    have ht : CaptureText (some f) = [] := by simp [CaptureText, hsec]
    simp only [RenderView.CapturePageInfo, hmf, ht]
    split_ifs <;> simp_all

/-- Witness for C9: a concrete secure frame is not captured and its page
text is never sent. -/
theorem C9_secure_pages_not_indexed_witness :
    CaptureText (some ⟨⟨"https://bank/", true, true⟩, false, false,
      ['h', 'i']⟩) = [] ∧
    Msg.PageContents "https://bank/" 4 ['h', 'i'] ∉
      (({ RenderView.init with page_id := 4 } : RenderView).CapturePageInfo
        (some ⟨some ⟨⟨"https://bank/", true, true⟩, false, false,
          ['h', 'i']⟩⟩) 4 false).2 := by
  have h := C9_secure_pages_not_indexed
    ⟨⟨"https://bank/", true, true⟩, false, false, ['h', 'i']⟩
    { RenderView.init with page_id := 4 }
    ⟨some ⟨⟨"https://bank/", true, true⟩, false, false, ['h', 'i']⟩⟩ 4 false
  exact ⟨h.1 rfl, h.2 rfl rfl "https://bank/" 4 ['h', 'i']⟩

/-- C4: linear message dispatch.  The dispatch map of
`RenderView::OnMessageReceived` has 66 entries with pairwise-distinct
message types (so each type maps to exactly one handler); the devtools
client and agent get first refusal; a message type with a table entry goes
to its handler; and a message matching no entry is handed to
`RenderWidget::OnMessageReceived`. -/
theorem C4_linear_dispatch :
    messageMap.length = 66 ∧
    (messageMap.map Prod.fst).Nodup ∧
    (∀ (da : Bool) (t : IPCMsgType),
      OnMessageReceived true da t = .devtoolsClient) ∧
    (∀ t : IPCMsgType, OnMessageReceived false true t = .devtoolsAgent) ∧
    (∀ (vt : ViewMsgType) (h : RVHandler),
      lookupHandler vt messageMap = some h →
      OnMessageReceived false false (.view vt) = .handler h) ∧
    (∀ t : IPCMsgType, tableEntry t = none →
      OnMessageReceived false false t = .renderWidget) := by
  refine ⟨rfl, by decide, fun da t => rfl, fun t => rfl, ?_, ?_⟩
  · intro vt h hl
    simp [OnMessageReceived, tableEntry, hl]
  · intro t ht
    simp [OnMessageReceived, ht]

/-- Witness for C4: `ViewMsg_Navigate` goes to `OnNavigate`; an unknown
message type falls through to the render widget. -/
theorem C4_linear_dispatch_witness :
    OnMessageReceived false false (.view .Navigate) = .handler .OnNavigate ∧
    OnMessageReceived false false (.other 12345) = .renderWidget :=
  ⟨C4_linear_dispatch.2.2.2.2.1 .Navigate .OnNavigate rfl,
   C4_linear_dispatch.2.2.2.2.2 (.other 12345) rfl⟩

end Chromium
